import Mathlib

/-!
# Verification of the Aptos package-approval reconciler

Shallow embedding of `src/main.py`: the reconciliation routine
`handle_analyze`, the spec-file upload routine `handle_upload_spec`, and the
data they operate on.  Machine data (JSON/YAML values) is embedded as typed
Lean structures; Python `set` values are embedded as `Finset`/`toFinset`;
the pandas presentation step is embedded explicitly (see
`sort_values_matched_desc` and the `keyErr` outcome below).
-/

namespace AptosDefender

/-- A runtime package as produced by `get_onchain_modules` (main.py lines
24-31): `package` is `pkg["name"]`, `modules` the module-name collection
`[x["name"] for x in pkg["modules"]]` (a Python `set`, embedded as the list
of its elements and always compared extensionally), and `version` the integer
`pkg["upgrade_number"]`. -/
structure RuntimePackage where
  package : String
  modules : List String
  version : Nat
deriving DecidableEq

/-- One entry of a contract group's `packages` list in the YAML spec:
`{ name, modules, approved }` (main.py lines 64-65, 71-72, 77-78). -/
structure ApprovedPackageSpec where
  name : String
  modules : List String
  approved : List String
deriving DecidableEq

/-- One contract group of the spec document: the code only reads its
`packages` key (main.py line 64). -/
structure ContractGroup where
  packages : List ApprovedPackageSpec
deriving DecidableEq

/-- The parsed YAML spec document as `handle_analyze` reads it: only the
top-level key `aptos_defi_approved_lists` is consulted; `none` embeds both a
missing key and a YAML `null` value, `some []` an empty list (all falsy in
Python, main.py lines 52-53). -/
structure SpecDoc where
  aptos_defi_approved_lists : Option (List ContractGroup)
deriving DecidableEq

/-- One row of the report DataFrame, with the exact display strings built at
main.py lines 80-89.  `matched` holds the rendered marker `"✅"` or `"❌"`. -/
structure Row where
  package_name : String
  contract_name : String
  address : String
  onchain_package_version : String
  approved_versions : String
  matched : String
deriving DecidableEq

/-- The spec entries in document order: groups in order, and each group's
packages in order (the iteration order of the nested generator at main.py
lines 63-64). -/
def allPackages (groups : List ContractGroup) : List ApprovedPackageSpec :=
  (groups.map (fun c => c.packages)).flatten

/-- main.py lines 60-68: `next((pkg for contract in approved_specs for pkg
in contract["packages"] if pkg["name"] == runtime_pkg["package"]), None)` —
the first spec entry, scanning the flattened document order, whose `name`
equals the runtime package name. -/
def findSpec (name : String) (groups : List ContractGroup) : Option ApprovedPackageSpec :=
  (allPackages groups).find? (fun pkg => pkg.name == name)

/-- main.py line 71: `f"v{runtime_pkg['version']}" in matched_pkg["approved"]`.
The on-chain integer version is rendered with a `"v"` prefix and looked up
literally in the approved list; the approved entries are not normalized. -/
def is_version_approved (rp : RuntimePackage) (sp : ApprovedPackageSpec) : Bool :=
  sp.approved.contains ("v" ++ toString rp.version)

/-- main.py line 72: `set(runtime_pkg["modules"]) == set(matched_pkg["modules"])` —
extensional equality of the two module sets. -/
def is_modules_match (rp : RuntimePackage) (sp : ApprovedPackageSpec) : Bool :=
  decide (rp.modules.toFinset = sp.modules.toFinset)

/-- main.py line 73: `matched = is_version_approved and is_modules_match`. -/
def matched_flag (rp : RuntimePackage) (sp : ApprovedPackageSpec) : Bool :=
  is_version_approved rp sp && is_modules_match rp sp

/-- The loop body of main.py lines 59-89: build the report row for one
runtime package. -/
def buildRow (contract_address : String) (approved_specs : List ContractGroup)
    (rp : RuntimePackage) : Row :=
  match findSpec rp.package approved_specs with
  | some sp =>
    { package_name := rp.package
      contract_name := sp.name
      address := contract_address
      onchain_package_version := "v" ++ toString rp.version
      approved_versions := String.intercalate ", " sp.approved
      matched := if matched_flag rp sp then "✅" else "❌" }
  | none =>
    { package_name := rp.package
      contract_name := "Unknown"
      address := contract_address
      onchain_package_version := "v" ++ toString rp.version
      approved_versions := "N/A"
      matched := "❌" }

/-- Python string comparison, as pandas applies it to the `matched` column:
codepoint-lexicographic `≤` on the character sequences (`Char < Char` in
Lean is exactly codepoint order).  Note `"✅" < "❌"`: U+2705 < U+274C. -/
def charListLe : List Char → List Char → Bool
  | [], _ => true
  | _ :: _, [] => false
  | a :: as, b :: bs => if a < b then true else if b < a then false else charListLe as bs

/-- The comparison pandas applies when sorting the report by the `matched`
column. -/
def RowKeyLe (a b : Row) : Prop := charListLe a.matched.data b.matched.data = true

instance : DecidableRel RowKeyLe := fun a b =>
  inferInstanceAs (Decidable (charListLe a.matched.data b.matched.data = true))

/-- main.py line 92: `df.sort_values(by=["matched"], ascending=False)`.
For a single sort column pandas computes the order via
`pandas.core.sorting.nargsort`, which for `ascending=False` reverses the key
and index arrays BEFORE taking an ascending argsort and reverses the
resulting indexer AFTER (the double reversal adopted to fix pandas GH#6399,
sorts not being stable with `ascending=False`).  The emitted row order is
therefore the reverse of a stable ascending sort of the reversed rows —
which is exactly a STABLE descending sort by the rendered marker: ties keep
their input order.  (On the report frames considered here the underlying
numpy argsort is indeed stable: numpy introsort runs plain insertion sort
below its 16-element cutoff, and insertion sort never reorders equal
keys.) -/
def sort_values_matched_desc (rows : List Row) : List Row :=
  (List.insertionSort RowKeyLe rows.reverse).reverse

/-- Outcome of one `handle_analyze` call.  `warning msg` embeds the early
returns `gr.Warning(msg); return None, []` (no rows); `keyErr col` embeds an
uncaught pandas `KeyError` escaping from `df.sort_values` (the function has
no exception handler); `report rows` is the sorted DataFrame. -/
inductive AnalyzeResult where
  | warning (msg : String)
  | keyErr (column : String)
  | report (rows : List Row)
deriving DecidableEq

/-- main.py lines 35-94, after the two external boundaries: `onchain_data`
stands for the value fetched by `get_onchain_modules` and `spec` for
`yaml.safe_load(spec_str)` restricted to the one key the code reads.
The final step builds `pd.DataFrame(rows)` and sorts it by the `matched`
column: when `rows` is empty the DataFrame has no columns at all, so
`sort_values(by=["matched"])` raises `KeyError: 'matched'`. -/
def handle_analyze (contract_address : String) (spec_str : String) (spec : SpecDoc)
    (onchain_data : List RuntimePackage) : AnalyzeResult :=
  if contract_address.isEmpty then AnalyzeResult.warning "Please fill in contract address"
  else if spec_str.isEmpty then AnalyzeResult.warning "Please fill in spec"
  else
    match spec.aptos_defi_approved_lists with
    | none => AnalyzeResult.warning "Please fill in approved list in spec"
    | some approved_specs =>
      if approved_specs.isEmpty then AnalyzeResult.warning "Please fill in approved list in spec"
      else
        match onchain_data.map (buildRow contract_address approved_specs) with
        | [] => AnalyzeResult.keyErr "matched"
        | r :: rs => AnalyzeResult.report (sort_values_matched_desc (r :: rs))

/-- Python `s.endswith(suffix)` (main.py line 114): a codepoint-level
suffix test on the character sequences. -/
def strEndsWith (s suffix : String) : Bool :=
  suffix.data.isSuffixOf s.data

/-- Outcome of one `handle_upload_spec` call (main.py lines 97-124).
`saved` is the first return value (the saved path, or `None` on rejection);
`wrote` records the file written into `specs/` together with its content
(main.py lines 118-119), `none` when nothing was written; `specs_dir` is the
set of filenames in the `specs` directory after the call; `choices` is the
dropdown choice set returned by the nested `refresh_specs` (lines 105-108:
`spec_files = set(os.listdir("specs")); spec_files.add(basename)`). -/
structure UploadOutcome where
  saved : Option String
  wrote : Option (String × String)
  specs_dir : Finset String
  choices : Finset String
deriving DecidableEq

/-- main.py lines 97-124.  `specs_dir` is the set of filenames currently in
the `specs` directory, `basename` is `os.path.basename(fileobj.name)` and
`content` the uploaded bytes.  The code checks only that the basename is not
the reserved `"example.yaml"` and that it ends with `".yaml"`; on both checks
passing it writes `content` to `specs/{basename}` unconditionally — the
content itself is never inspected (no emptiness check, no YAML parse).
In the success path `refresh_specs` runs after the write, so its `listdir`
already contains `basename`. -/
def handle_upload_spec (specs_dir : Finset String) (basename content : String) :
    UploadOutcome :=
  if basename = "example.yaml" then
    { saved := none
      wrote := none
      specs_dir := specs_dir
      choices := insert basename specs_dir }
  else if !(strEndsWith basename ".yaml") then
    { saved := none
      wrote := none
      specs_dir := specs_dir
      choices := insert basename specs_dir }
  else
    { saved := some ("specs/" ++ basename)
      wrote := some (basename, content)
      specs_dir := insert basename specs_dir
      choices := insert basename (insert basename specs_dir) }

/-- Refinement side, following the SPEC's words (§4.2 step 2 and §9): version
normalization strips an optional leading `"v"` and otherwise leaves the
string unchanged.  This is what the spec prescribes, stated for comparison
with the code's `is_version_approved`; it is not part of the code. -/
def specSide_normalize (s : String) : String :=
  match s.data with
  | 'v' :: rest => String.mk rest
  | _ => s

/-- Refinement side, following the SPEC's words (§4.2 step 2): the
version-approval test the spec prescribes — membership of the normalized
on-chain version in the set of normalized approved entries. -/
def specSide_version_ok (version : Nat) (approved : List String) : Bool :=
  (approved.map specSide_normalize).contains (specSide_normalize (toString version))

theorem charListLe_cons (a b : Char) (as bs : List Char) :
    charListLe (a :: as) (b :: bs) =
      if a < b then true else if b < a then false else charListLe as bs := rfl

theorem charListLe_total : ∀ x y : List Char, charListLe x y = true ∨ charListLe y x = true
  | [], _ => Or.inl rfl
  | _ :: _, [] => Or.inr rfl
  | a :: as, b :: bs => by
    rcases lt_trichotomy a b with hab | hab | hab
    · exact Or.inl (by rw [charListLe_cons, if_pos hab])
    · subst hab
      rcases charListLe_total as bs with h | h
      · refine Or.inl ?_
        rw [charListLe_cons, if_neg (lt_irrefl a), if_neg (lt_irrefl a)]
        exact h
      · refine Or.inr ?_
        rw [charListLe_cons, if_neg (lt_irrefl a), if_neg (lt_irrefl a)]
        exact h
    · exact Or.inr (by rw [charListLe_cons, if_pos hab])

theorem charListLe_trans : ∀ x y z : List Char,
    charListLe x y = true → charListLe y z = true → charListLe x z = true
  | [], _, _, _, _ => rfl
  | _ :: _, [], _, h, _ => by simp [charListLe] at h
  | _ :: _, _ :: _, [], _, h => by simp [charListLe] at h
  | a :: as, b :: bs, c :: cs, h1, h2 => by
    rw [charListLe_cons] at h1 h2 ⊢
    rcases lt_trichotomy a b with hab | hab | hab
    · rcases lt_trichotomy b c with hbc | hbc | hbc
      · rw [if_pos (lt_trans hab hbc)]
      · rw [if_pos (hbc ▸ hab)]
      · rw [if_neg (asymm hbc), if_pos hbc] at h2
        exact absurd h2 (by simp)
    · subst hab
      rcases lt_trichotomy a c with hac | hac | hac
      · rw [if_pos hac]
      · subst hac
        rw [if_neg (lt_irrefl a), if_neg (lt_irrefl a)] at h1 h2 ⊢
        exact charListLe_trans as bs cs h1 h2
      · rw [if_neg (asymm hac), if_pos hac] at h2
        exact absurd h2 (by simp)
    · rw [if_neg (asymm hab), if_pos hab] at h1
      exact absurd h1 (by simp)

instance : IsTotal Row RowKeyLe :=
  ⟨fun a b => charListLe_total a.matched.data b.matched.data⟩

instance : IsTrans Row RowKeyLe :=
  ⟨fun a b c hab hbc => charListLe_trans a.matched.data b.matched.data c.matched.data hab hbc⟩

/-- Helper: the nested-generator search comes up empty exactly when no spec
entry carries the runtime package's name. -/
theorem findSpec_eq_none_iff (name : String) (groups : List ContractGroup) :
    findSpec name groups = none ↔ ∀ sp ∈ allPackages groups, sp.name ≠ name := by
  simp [findSpec, List.find?_eq_none]

/-- C1: the claim says the version check passes exactly when the normalized
(prefix-free) on-chain version is a member of the normalized approved set, so
that version 1 is approved both by entry "v1" and by entry "1".  False: the
code (main.py line 71) tests literal membership of "v1" with no
normalization of the approved entries, so the spec-prescribed test accepts
the entry "1" for version 1 while the code rejects it. -/
theorem c1_counterexample :
    specSide_version_ok 1 ["1"] = true ∧
    is_version_approved ⟨"coin", ["Coin"], 1⟩ ⟨"coin", ["Coin"], ["1"]⟩ = false ∧
    is_version_approved ⟨"coin", ["Coin"], 1⟩ ⟨"coin", ["Coin"], ["v1"]⟩ = true := by
  decide

/-- C1 amended: the version check passes exactly when the literal string
"v" followed by the on-chain version is a member of the approved list as
written (no normalization on either side beyond the "v" the code prepends):
for every version n, an approved entry "v<n>" approves it, and the bare
entry "<n>" does not. -/
theorem c1_version_check_literal (p : String) (ms : List String) (n : Nat)
    (nm : String) (sms rest : List String) :
    (∀ approved : List String,
      is_version_approved ⟨p, ms, n⟩ ⟨nm, sms, approved⟩ = true ↔
        ("v" ++ toString n) ∈ approved) ∧
    is_version_approved ⟨p, ms, n⟩ ⟨nm, sms, ("v" ++ toString n) :: rest⟩ = true ∧
    is_version_approved ⟨p, ms, n⟩ ⟨nm, sms, [toString n]⟩ = false := by
  have hne : ("v" ++ toString n) ≠ toString n := by
    intro he
    have hlen := congrArg String.length he
    rw [String.length_append] at hlen
    have h1 : ("v" : String).length = 1 := rfl
    rw [h1] at hlen
    omega
  refine ⟨?_, ?_, ?_⟩
  · intro approved
    simp [is_version_approved]
  · simp [is_version_approved]
  · simp [is_version_approved, hne]

/-- C2: for a runtime package matched to spec entry `sp`, the row passes
(marker "✅") iff both the version membership test and the exact,
order-independent module-set equality pass; failing either alone fails the
row (marker "❌"). -/
theorem c2_matched_iff_version_and_modules
    (address : String) (groups : List ContractGroup)
    (rp : RuntimePackage) (sp : ApprovedPackageSpec)
    (h : findSpec rp.package groups = some sp) :
    ((buildRow address groups rp).matched = "✅" ↔
      (is_version_approved rp sp = true ∧ is_modules_match rp sp = true)) ∧
    (is_modules_match rp sp = true ↔ ∀ m : String, m ∈ rp.modules ↔ m ∈ sp.modules) ∧
    ((is_version_approved rp sp = false ∨ is_modules_match rp sp = false) →
      (buildRow address groups rp).matched = "❌") := by
  have hne : ("❌" : String) ≠ "✅" := by decide
  refine ⟨?_, ?_, ?_⟩
  · cases hm : matched_flag rp sp with
    | true =>
      have hrow : (buildRow address groups rp).matched = "✅" := by
        simp [buildRow, h, hm]
      rw [matched_flag, Bool.and_eq_true] at hm
      rw [hrow]
      simp [hm.1, hm.2]
    | false =>
      have hrow : (buildRow address groups rp).matched = "❌" := by
        simp [buildRow, h, hm]
      rw [hrow]
      constructor
      · intro hx
        exact absurd hx hne
      · rintro ⟨h1, h2⟩
        rw [matched_flag, h1, h2] at hm
        simp at hm
  · simp only [is_modules_match, decide_eq_true_eq, Finset.ext_iff, List.mem_toFinset]
  · intro hcase
    have hm : matched_flag rp sp = false := by
      rcases hcase with h1 | h1 <;> simp [matched_flag, h1]
    simp [buildRow, h, hm]

/-- Witness for C2 at a concrete matched pair (end-to-end scenario 1 of the
spec: package "coin", modules {"Coin"}, version 2 against approved
["v1", "v2"]). -/
theorem c2_witness :
    findSpec "coin" [⟨[⟨"coin", ["Coin"], ["v1", "v2"]⟩]⟩] =
      some ⟨"coin", ["Coin"], ["v1", "v2"]⟩ ∧
    ((buildRow "0x1" [⟨[⟨"coin", ["Coin"], ["v1", "v2"]⟩]⟩] ⟨"coin", ["Coin"], 2⟩).matched = "✅" ↔
      (is_version_approved ⟨"coin", ["Coin"], 2⟩ ⟨"coin", ["Coin"], ["v1", "v2"]⟩ = true ∧
        is_modules_match ⟨"coin", ["Coin"], 2⟩ ⟨"coin", ["Coin"], ["v1", "v2"]⟩ = true)) :=
  ⟨by decide,
    (c2_matched_iff_version_and_modules "0x1" [⟨[⟨"coin", ["Coin"], ["v1", "v2"]⟩]⟩]
      ⟨"coin", ["Coin"], 2⟩ ⟨"coin", ["Coin"], ["v1", "v2"]⟩ (by decide)).1⟩

/-- C3: the spec entry used for a runtime package name is the first entry, in
flattened document order (groups in order, packages within each group in
order), whose `name` equals it; and the search is empty exactly when no entry
at all carries that name (the package is then unmatched). -/
theorem c3_first_match_wins (name : String) (groups : List ContractGroup) :
    (∀ sp : ApprovedPackageSpec,
      (findSpec name groups = some sp ↔
        sp.name = name ∧
          ∃ l1 l2, allPackages groups = l1 ++ sp :: l2 ∧ ∀ q ∈ l1, q.name ≠ name)) ∧
    (findSpec name groups = none ↔ ∀ sp ∈ allPackages groups, sp.name ≠ name) := by
  constructor
  · intro sp
    simp [findSpec, List.find?_eq_some]
  · exact findSpec_eq_none_iff name groups

/-- Witness for C3 at a concrete name and spec document: a name appearing in
no group leaves the search empty. -/
theorem c3_witness :
    findSpec "absent" [⟨[⟨"coin", ["Coin"], ["v1"]⟩]⟩, ⟨[⟨"vault", ["V"], ["v2"]⟩]⟩] =
      none :=
  (c3_first_match_wins "absent"
    [⟨[⟨"coin", ["Coin"], ["v1"]⟩]⟩, ⟨[⟨"vault", ["V"], ["v2"]⟩]⟩]).2.mpr (by decide)

/-- C4 marks a genuine code bug.  The claim (and spec §4.2) says an empty
runtime package list yields an empty result sequence without error, but at
that input the code reaches `pd.DataFrame([]).sort_values(by=["matched"],
ascending=False)` (main.py lines 91-92): the DataFrame built from an empty
row list has no columns, so pandas raises `KeyError: 'matched'` and
`handle_analyze` (which installs no handler) propagates it instead of
returning an empty report.  This theorem evaluates the embedded code at the
failing input: a valid address, a valid spec document with a nonempty
approved list, and no runtime packages. -/
theorem c4_empty_packages_keyerror :
    handle_analyze "0x1" "spec" ⟨some [⟨[⟨"coin", ["Coin"], ["v1"]⟩]⟩]⟩ [] =
      AnalyzeResult.keyErr "matched" := rfl

/-- C6: a runtime package whose name equals no spec entry's name yields a row
with matched marker "❌", contract name "Unknown" and approved-versions
display "N/A". -/
theorem c6_unmatched_row_fields (address : String) (groups : List ContractGroup)
    (rp : RuntimePackage) (h : ∀ sp ∈ allPackages groups, sp.name ≠ rp.package) :
    (buildRow address groups rp).matched = "❌" ∧
    (buildRow address groups rp).contract_name = "Unknown" ∧
    (buildRow address groups rp).approved_versions = "N/A" := by
  have hn : findSpec rp.package groups = none :=
    (findSpec_eq_none_iff rp.package groups).mpr h
  simp [buildRow, hn]

/-- Witness for C6: the package "other" appears nowhere in a spec that only
approves "coin". -/
theorem c6_witness :
    (buildRow "0x1" [⟨[⟨"coin", ["Coin"], ["v1"]⟩]⟩] ⟨"other", ["M"], 3⟩).matched = "❌" ∧
    (buildRow "0x1" [⟨[⟨"coin", ["Coin"], ["v1"]⟩]⟩] ⟨"other", ["M"], 3⟩).contract_name =
      "Unknown" ∧
    (buildRow "0x1" [⟨[⟨"coin", ["Coin"], ["v1"]⟩]⟩] ⟨"other", ["M"], 3⟩).approved_versions =
      "N/A" :=
  c6_unmatched_row_fields "0x1" [⟨[⟨"coin", ["Coin"], ["v1"]⟩]⟩] ⟨"other", ["M"], 3⟩
    (by decide)

/-- C7: with a valid address and nonempty spec text, a spec document whose
top-level approved-list key is absent makes `handle_analyze` return the
non-fatal warning (the Python code returns `(None, [])` after `gr.Warning`)
— no rows and no exception. -/
theorem c7_missing_key_warning (address spec_str : String)
    (onchain : List RuntimePackage)
    (h1 : address.isEmpty = false) (h2 : spec_str.isEmpty = false) :
    handle_analyze address spec_str ⟨none⟩ onchain =
      AnalyzeResult.warning "Please fill in approved list in spec" ∧
    ∀ rows : List Row,
      handle_analyze address spec_str ⟨none⟩ onchain ≠ AnalyzeResult.report rows := by
  constructor
  · simp [handle_analyze, h1, h2]
  · intro rows
    simp [handle_analyze, h1, h2]

/-- Witness for C7 at a concrete valid address and spec text. -/
theorem c7_witness :
    ("0x1" : String).isEmpty = false ∧
    handle_analyze "0x1" "spec" ⟨none⟩ [⟨"coin", ["Coin"], 1⟩] =
      AnalyzeResult.warning "Please fill in approved list in spec" :=
  ⟨by decide,
    (c7_missing_key_warning "0x1" "spec" [⟨"coin", ["Coin"], 1⟩]
      (by decide) (by decide)).1⟩

/-- C8 counterexample: the claim requires, among other validations, non-empty
content and a successful YAML parse before anything is written.  Uploading a
file "empty.yaml" with EMPTY content fails that validation, yet the code
persists it: `handle_upload_spec` checks only the basename (not
"example.yaml") and the ".yaml" extension, never the content (main.py lines
110-119), so the file is saved and written with empty content. -/
theorem c8_counterexample :
    ("" : String).isEmpty = true ∧
    (handle_upload_spec {"example.yaml"} "empty.yaml" "").saved = some "specs/empty.yaml" ∧
    (handle_upload_spec {"example.yaml"} "empty.yaml" "").wrote = some ("empty.yaml", "") ∧
    "empty.yaml" ∈ (handle_upload_spec {"example.yaml"} "empty.yaml" "").specs_dir := by
  decide

/-- C8 amended: an uploaded spec is persisted exactly when its basename
differs from the reserved "example.yaml" and ends with ".yaml"; when either
of those two checks fails nothing is written; the content itself is never
validated (no emptiness check and no YAML parse) — whatever bytes were
uploaded are persisted verbatim whenever the two name checks pass. -/
theorem c8_upload_validations (dir : Finset String) (basename content : String) :
    ((handle_upload_spec dir basename content).saved.isSome = true ↔
      (basename ≠ "example.yaml" ∧ strEndsWith basename ".yaml" = true)) ∧
    ((handle_upload_spec dir basename content).saved = none →
      (handle_upload_spec dir basename content).wrote = none ∧
      (handle_upload_spec dir basename content).specs_dir = dir) ∧
    ((handle_upload_spec dir basename content).saved.isSome = true →
      (handle_upload_spec dir basename content).wrote = some (basename, content) ∧
      (handle_upload_spec dir basename content).specs_dir = insert basename dir) := by
  by_cases h1 : basename = "example.yaml"
  · subst h1
    simp [handle_upload_spec]
  · cases h2 : strEndsWith basename ".yaml" with
    | false => simp [handle_upload_spec, h1, h2]
    | true => simp [handle_upload_spec, h1, h2]

/-- Witness for C8's amended theorem: "notes.txt" fails the extension check,
so nothing is saved and the directory holds what it held. -/
theorem c8_witness :
    (handle_upload_spec ∅ "notes.txt" "x").wrote = none ∧
    (handle_upload_spec ∅ "notes.txt" "x").specs_dir = (∅ : Finset String) :=
  (c8_upload_validations ∅ "notes.txt" "x").2.1 (by decide)

/-- C9 counterexample: uploading the reserved name "example.yaml" into an
empty spec directory is rejected and nothing is written — but the listing
handed back for the dropdown is NOT the unchanged directory listing: the
nested `refresh_specs` adds the rejected basename (main.py line 107), so the
displayed choices gained, and contain, "example.yaml". -/
theorem c9_counterexample :
    (handle_upload_spec ∅ "example.yaml" "x").saved = none ∧
    (handle_upload_spec ∅ "example.yaml" "x").specs_dir = (∅ : Finset String) ∧
    "example.yaml" ∈ (handle_upload_spec ∅ "example.yaml" "x").choices ∧
    (handle_upload_spec ∅ "example.yaml" "x").choices ≠ (∅ : Finset String) := by
  decide

/-- C9 amended: every upload named "example.yaml" is rejected with a
validation warning and no file is written (the directory contents are
unchanged), but the dropdown listing returned is the directory listing with
the rejected basename added — so it always contains "example.yaml". -/
theorem c9_reject_keeps_dir_but_lists_name (dir : Finset String) (content : String) :
    (handle_upload_spec dir "example.yaml" content).saved = none ∧
    (handle_upload_spec dir "example.yaml" content).wrote = none ∧
    (handle_upload_spec dir "example.yaml" content).specs_dir = dir ∧
    (handle_upload_spec dir "example.yaml" content).choices = insert "example.yaml" dir ∧
    "example.yaml" ∈ (handle_upload_spec dir "example.yaml" content).choices := by
  simp [handle_upload_spec]

/-- C10: a spec document whose approved-list key holds an empty (falsy) value
behaves exactly like the missing-key case: Python's `if not approved_specs`
treats `[]` and `None` alike (main.py lines 52-55), so the same warning is
reported and no rows are produced. -/
theorem c10_empty_key_value_warning (address spec_str : String)
    (onchain : List RuntimePackage)
    (h1 : address.isEmpty = false) (h2 : spec_str.isEmpty = false) :
    handle_analyze address spec_str ⟨some []⟩ onchain =
      handle_analyze address spec_str ⟨none⟩ onchain ∧
    handle_analyze address spec_str ⟨some []⟩ onchain =
      AnalyzeResult.warning "Please fill in approved list in spec" := by
  constructor <;> simp [handle_analyze, h1, h2]

/-- Witness for C10 at a concrete valid address, spec text, and runtime
package list. -/
theorem c10_witness :
    ("0x1" : String).isEmpty = false ∧
    handle_analyze "0x1" "spec" ⟨some []⟩ [⟨"coin", ["Coin"], 1⟩] =
      AnalyzeResult.warning "Please fill in approved list in spec" :=
  ⟨by decide,
    (c10_empty_key_value_warning "0x1" "spec" [⟨"coin", ["Coin"], 1⟩]
      (by decide) (by decide)).2⟩

end AptosDefender
